import Mathlib

/-!
Shallow embedding of the decision-engine core of src/IDSSstreamlit.py.

Monetary quantities and scores are modelled as exact rationals. Fallible
Python operations are embedded as Except-valued functions: a built-in
Python division raises ZeroDivisionError exactly when its denominator is
zero, a dict lookup d[k] raises KeyError exactly when the key is absent,
and predict_operating_costs raises ValueError on a wrong-length history.
The spec names these error kinds InvalidInputError, UnknownCategoryError
and DivisionByZeroError; the Err type below carries those kinds.
-/

namespace IDSS

/-- Error kinds of the spec's error-handling design (section 7). -/
inductive Err where
  | invalidInput
  | unknownCategory
  | zeroDivision
  deriving DecidableEq, Repr

/-- Weights for the five fixed decision factors (dict built at line 137 of
the source; values are arbitrary non-negative numbers here, the composer
treats them as plain linear coefficients). -/
structure Weights where
  cost : ℚ
  style : ℚ
  reliability : ℚ
  fuel_economy : ℚ
  safety : ℚ

/-- Embedding of calculate_weighted_score (source lines 16-21): the plain
weighted linear sum of the five factor scores. -/
def calculate_weighted_score (cost_score style_score reliability_score
    fuel_economy_score safety_score : ℚ) (weights : Weights) : ℚ :=
  weights.cost * cost_score +
  weights.style * style_score +
  weights.reliability * reliability_score +
  weights.fuel_economy * fuel_economy_score +
  weights.safety * safety_score

/-- Embedding of the comprehension inside calculate_pv (source line 24),
carrying the running year index of enumerate. Each term cf / (1 + rate)^year
is a Python float division, which raises ZeroDivisionError when the
denominator is zero (that happens exactly when rate = -1 and year ≥ 1). -/
def calculate_pv_from (cash_flows : List ℚ) (discount_rate : ℚ) (year : ℕ) :
    Except Err ℚ :=
  match cash_flows with
  | [] => .ok 0
  | cf :: rest =>
    if (1 + discount_rate) ^ year = 0 then .error .zeroDivision
    else
      match calculate_pv_from rest discount_rate (year + 1) with
      | .ok s => .ok (cf / (1 + discount_rate) ^ year + s)
      | .error e => .error e

/-- Embedding of calculate_pv (source lines 23-24): discounted sum of a
cash-flow sequence, period 0 undiscounted (enumerate starts at 0). -/
def calculate_pv (cash_flows : List ℚ) (discount_rate : ℚ) : Except Err ℚ :=
  calculate_pv_from cash_flows discount_rate 0

/-- Embedding of predict_operating_costs (source lines 26-37). The
sklearn LinearRegression fit of ys against the fixed regressor [1, 2, 3]
is ordinary least squares, written here in its closed form (slope =
Sxy / Sxx around the means, intercept = ybar - slope * xbar); the fitted
line is evaluated at periods 4..8 and each prediction is clamped from
below at 0 by max(0, cf). A history whose length is not 3 raises
(ValueError in the source, InvalidInputError in the spec's naming). -/
def predict_operating_costs (operating_costs : List ℚ) : Except Err (List ℚ) :=
  if operating_costs.length ≠ 3 then .error .invalidInput
  else
    let c1 := operating_costs.getD 0 0
    let c2 := operating_costs.getD 1 0
    let c3 := operating_costs.getD 2 0
    let xbar : ℚ := (1 + 2 + 3) / 3
    let ybar : ℚ := (c1 + c2 + c3) / 3
    let sxy : ℚ := (1 - xbar) * (c1 - ybar) + (2 - xbar) * (c2 - ybar) +
      (3 - xbar) * (c3 - ybar)
    let sxx : ℚ := (1 - xbar) ^ 2 + (2 - xbar) ^ 2 + (3 - xbar) ^ 2
    let slope := sxy / sxx
    let intercept := ybar - slope * xbar
    .ok (([4, 5, 6, 7, 8] : List ℚ).map (fun year => max 0 (intercept + slope * year)))

/-- Embedding of the reliability_scores dict (source line 75), as a partial
lookup: a Python d[k] access on a missing key raises KeyError. -/
def reliability_scores (nationality : String) : Option ℚ :=
  if nationality = "Japanese" then some (9/10)
  else if nationality = "Korean" then some (8/10)
  else if nationality = "American" then some (8/10)
  else if nationality = "German" then some (7/10)
  else none

/-- Embedding of the safety_scores dict (source line 76). -/
def safety_scores (nationality : String) : Option ℚ :=
  if nationality = "Japanese" then some (7/10)
  else if nationality = "Korean" then some (8/10)
  else if nationality = "American" then some (85/100)
  else if nationality = "German" then some (9/10)
  else none

/-- Embedding of the depreciation_rates dict (source lines 85-90). -/
def depreciation_rates (nationality : String) : Option ℚ :=
  if nationality = "American" then some (15/100)
  else if nationality = "Japanese" then some (11/100)
  else if nationality = "German" then some (18/100)
  else if nationality = "Korean" then some (13/100)
  else none

/-- The closed set of category keys shared by the three lookup tables. -/
def nationalities : List String := ["Japanese", "Korean", "American", "German"]

/-- Embedding of depreciation_rates.get(origin, 0.1) (source lines 170-171):
a Python dict .get with a default never fails, it substitutes 0.1 for a
missing key. -/
def dep_rate (nationality : String) : ℚ :=
  (depreciation_rates nationality).getD (1/10)

/-- Embedding of the residual-value computation (source lines 173-174):
price * (1 - depreciationRate)^5, with the rate looked up through dep_rate. -/
def residual_value (price : ℚ) (nationality : String) : ℚ :=
  price * (1 - dep_rate nationality) ^ 5

/-- Embedding of cash_flow_defender (source line 176): period 0 is 0,
periods 1-4 are the negated first four predicted costs, period 5 is the
negated fifth predicted cost plus the residual value. -/
def cash_flow_defender (predicted_costs : List ℚ) (residual : ℚ) : List ℚ :=
  0 :: ((predicted_costs.take 4).map (fun cost => -cost) ++
    [-(predicted_costs.getD 4 0) + residual])

/-- Embedding of cash_flow_challenger (source line 177): period 0 is the
trade delta market value minus buying price, periods 1-4 are the negated
first four operating costs, period 5 is the negated fifth cost plus the
residual value. -/
def cash_flow_challenger (defender_market_value buying_price : ℚ)
    (operating_costs : List ℚ) (residual : ℚ) : List ℚ :=
  (defender_market_value - buying_price) ::
    ((operating_costs.take 4).map (fun cost => -cost) ++
      [-(operating_costs.getD 4 0) + residual])

/-- Embedding of total_pv (source line 182). -/
def total_pv (defender_pv challenger_pv : ℚ) : ℚ := defender_pv + challenger_pv

/-- Embedding of cost_score_defender (source line 183): the challenger's
present value divided by the total. The source performs this division with
no guard on the denominator; in this rational embedding division by zero
takes Lean's junk value 0. -/
def cost_score_defender (defender_pv challenger_pv : ℚ) : ℚ :=
  challenger_pv / total_pv defender_pv challenger_pv

/-- Embedding of cost_score_challenger (source line 184): the defender's
present value divided by the total, likewise unguarded. -/
def cost_score_challenger (defender_pv challenger_pv : ℚ) : ℚ :=
  defender_pv / total_pv defender_pv challenger_pv

/-- Embedding of a weighted-score call site (source lines 186-193): the
reliability and safety factors are fetched by plain dict indexing keyed on
the nationality, so an unknown category raises (KeyError in the source,
UnknownCategoryError in the spec's naming) before the weighted sum is
formed. -/
def compose_weighted_score (cost_score style_score fuel_economy_score : ℚ)
    (nationality : String) (weights : Weights) : Except Err ℚ :=
  match reliability_scores nationality, safety_scores nationality with
  | some r, some s =>
    .ok (calculate_weighted_score cost_score style_score r fuel_economy_score s weights)
  | _, _ => .error .unknownCategory

/-- Embedding of the recommendation string (source line 202): the replace
message exactly when the challenger's weighted score is strictly greater,
otherwise the keep message. -/
def recommendation (defender_weighted_score challenger_weighted_score : ℚ) :
    String :=
  if challenger_weighted_score > defender_weighted_score then
    "Replace the current car with the new one."
  else
    "Keep your car."

/-- Claim C1: the engine recommends the replace message if and only if the
challenger's weighted score is strictly greater than the defender's, and
any tie of weighted scores yields the keep message. -/
theorem C1_recommendation_strict (d c : ℚ) :
    (recommendation d c = "Replace the current car with the new one." ↔ d < c) ∧
    (d = c → recommendation d c = "Keep your car.") := by
  constructor
  · unfold recommendation
    split
    · simp_all
    · simp_all
  · intro h
    subst h
    simp [recommendation]

/-- Claim C1 witness: at equal weighted scores the recommendation is the
keep message. -/
theorem C1_witness : recommendation 1 1 = "Keep your car." :=
  (C1_recommendation_strict 1 1).2 rfl

/-- Claim C2: for positive present values each option's cost-score is the
opposing present value over the sum of both, and the two cost-scores sum
to 1. -/
theorem C2_cost_score_symmetry (a b : ℚ) (ha : 0 < a) (hb : 0 < b) :
    cost_score_defender a b = b / (a + b) ∧
    cost_score_challenger a b = a / (a + b) ∧
    cost_score_defender a b + cost_score_challenger a b = 1 := by
  have hab : a + b ≠ 0 := by positivity
  refine ⟨rfl, rfl, ?_⟩
  unfold cost_score_defender cost_score_challenger total_pv
  field_simp
  ring

/-- Claim C2 witness: at present values 2 and 3 the two cost-scores sum
to 1. -/
theorem C2_witness :
    cost_score_defender 2 3 + cost_score_challenger 2 3 = 1 :=
  (C2_cost_score_symmetry 2 3 (by norm_num) (by norm_num)).2.2

/-- Claim C6: the built cash flow for each scenario is the 6-element
sequence whose period 0 is the acquisition delta (0 for keep, market value
minus buying price for replace), periods 1-4 are the negated operating
costs of years 1-4, and period 5 is the negated year-5 cost plus the
residual value; the residual value is price * (1 - depreciationRate)^5. -/
theorem C6_cash_flow_build (mv price rvd rvc d0 d1 d2 d3 d4 c0 c1 c2 c3 c4 : ℚ)
    (n : String) :
    cash_flow_defender [d0, d1, d2, d3, d4] rvd =
      [0, -d0, -d1, -d2, -d3, -d4 + rvd] ∧
    (cash_flow_defender [d0, d1, d2, d3, d4] rvd).length = 6 ∧
    cash_flow_challenger mv price [c0, c1, c2, c3, c4] rvc =
      [mv - price, -c0, -c1, -c2, -c3, -c4 + rvc] ∧
    (cash_flow_challenger mv price [c0, c1, c2, c3, c4] rvc).length = 6 ∧
    residual_value price n = price * (1 - dep_rate n) ^ 5 := by
  refine ⟨rfl, rfl, rfl, rfl, rfl⟩

/-- Claim C8 evidence: at the failing input where both present values are
zero, the denominator of the cost-score normalization is exactly zero, and
the unguarded divisions of the source produce the junk value 0 of this
embedding rather than an error (the source has no explicit guard; at run
time its numpy-float operands make the division silently yield NaN). -/
theorem C8_unguarded_zero_total :
    total_pv 0 0 = 0 ∧
    cost_score_defender 0 0 = 0 ∧
    cost_score_challenger 0 0 = 0 ∧
    cost_score_defender 0 0 + cost_score_challenger 0 0 ≠ 1 := by
  refine ⟨?_, ?_, ?_, ?_⟩ <;> simp [cost_score_defender, cost_score_challenger, total_pv]

/-- Claim C10: a nationality absent from the depreciation table does not
fail; the default rate 0.1 is silently substituted, so the residual value
becomes price * 0.9^5. -/
theorem C10_default_depreciation (nationality : String) (price : ℚ)
    (h : nationality ∉ nationalities) :
    dep_rate nationality = 1/10 ∧
    residual_value price nationality = price * (9/10) ^ 5 := by
  have hnone : depreciation_rates nationality = none := by
    unfold depreciation_rates
    simp only [nationalities, List.mem_cons, List.not_mem_nil] at h
    push_neg at h
    obtain ⟨hJ, hK, hA, hG⟩ := h
    simp [hJ, hK, hA, hG]
  constructor
  · unfold dep_rate
    rw [hnone]
    rfl
  · unfold residual_value dep_rate
    rw [hnone]
    norm_num

/-- Claim C10 witness: at the unknown nationality Martian and price 11000
the default rate 0.1 applies and the residual value is 11000 * 0.9^5. -/
theorem C10_witness :
    dep_rate "Martian" = 1/10 ∧
    residual_value 11000 "Martian" = 11000 * (9/10) ^ 5 :=
  C10_default_depreciation "Martian" 11000 (by decide)

/-- Claim C3: a 3-point cost history whose three values all equal some v
projects to the flat 5-element series [v, v, v, v, v] (histories are cost
series, so v is non-negative and the clamp is inert). -/
theorem C3_flat_projection (v : ℚ) (h : 0 ≤ v) :
    predict_operating_costs [v, v, v] = .ok [v, v, v, v, v] := by
  unfold predict_operating_costs
  norm_num
  rw [show (v + v + v) / 3 = v by ring]
  exact max_eq_right h

/-- Claim C3 witness: the all-1000 history projects to five 1000 values. -/
theorem C3_witness :
    predict_operating_costs [1000, 1000, 1000] = .ok [1000, 1000, 1000, 1000, 1000] :=
  C3_flat_projection 1000 (by norm_num)

/-- Claim C4: on every length-3 history the projection succeeds with a
series of length exactly 5 containing no negative value. -/
theorem C4_length_and_nonneg (operating_costs : List ℚ)
    (h : operating_costs.length = 3) :
    ∃ out, predict_operating_costs operating_costs = .ok out ∧
      out.length = 5 ∧ ∀ x ∈ out, 0 ≤ x := by
  unfold predict_operating_costs
  rw [if_neg (by omega)]
  refine ⟨_, rfl, by simp, ?_⟩
  intro x hx
  simp only [List.mem_map] at hx
  obtain ⟨t, _, rfl⟩ := hx
  exact le_max_left 0 _

/-- Claim C4 witness: the history [3, 1, 2] yields a 5-element non-negative
projection. -/
theorem C4_witness :
    ∃ out, predict_operating_costs [3, 1, 2] = .ok out ∧
      out.length = 5 ∧ ∀ x ∈ out, 0 ≤ x :=
  C4_length_and_nonneg [3, 1, 2] rfl

/-- Claim C5: the projection raises InvalidInputError exactly when the
history length is not 3 and succeeds on every length-3 history. -/
theorem C5_invalid_length (operating_costs : List ℚ) :
    (operating_costs.length ≠ 3 →
      predict_operating_costs operating_costs = .error .invalidInput) ∧
    (operating_costs.length = 3 →
      ∃ out, predict_operating_costs operating_costs = .ok out) := by
  constructor
  · intro h
    unfold predict_operating_costs
    rw [if_pos h]
  · intro h
    unfold predict_operating_costs
    rw [if_neg (by omega)]
    exact ⟨_, rfl⟩

/-- Claim C5 witness: histories of length 2 and 4 raise InvalidInputError
and a history of length 3 succeeds. -/
theorem C5_witness :
    predict_operating_costs [1, 2] = .error .invalidInput ∧
    predict_operating_costs [1, 2, 3, 4] = .error .invalidInput ∧
    ∃ out, predict_operating_costs [1, 2, 3] = .ok out :=
  ⟨(C5_invalid_length [1, 2]).1 (by simp),
   (C5_invalid_length [1, 2, 3, 4]).1 (by simp),
   (C5_invalid_length [1, 2, 3]).2 rfl⟩

/-- Claim C9: composing the weighted score fails with UnknownCategoryError
for every nationality outside the four enumerated ones, and succeeds for
each of the four using the fixed reliability and safety tables. -/
theorem C9_unknown_category (nationality : String)
    (cost_score style_score fuel_economy_score : ℚ) (w : Weights) :
    (nationality ∉ nationalities →
      compose_weighted_score cost_score style_score fuel_economy_score nationality w =
        .error .unknownCategory) ∧
    (nationality ∈ nationalities →
      ∃ r s, reliability_scores nationality = some r ∧
        safety_scores nationality = some s ∧
        compose_weighted_score cost_score style_score fuel_economy_score nationality w =
          .ok (calculate_weighted_score cost_score style_score r fuel_economy_score s w)) := by
  constructor
  · intro h
    simp only [nationalities, List.mem_cons, List.not_mem_nil] at h
    push_neg at h
    obtain ⟨hJ, hK, hA, hG⟩ := h
    unfold compose_weighted_score reliability_scores safety_scores
    simp [hJ, hK, hA, hG]
  · intro h
    simp only [nationalities, List.mem_cons, List.not_mem_nil, or_false] at h
    rcases h with h | h | h | h <;> subst h <;>
      exact ⟨_, _, rfl, rfl, rfl⟩

/-- Claim C9 witness: the unknown nationality Martian fails with
UnknownCategoryError and the nationality Japanese succeeds with its table
scores 0.9 and 0.7. -/
theorem C9_witness :
    compose_weighted_score 1 1 1 "Martian" ⟨1, 1, 1, 1, 1⟩ =
      .error .unknownCategory ∧
    compose_weighted_score 1 1 1 "Japanese" ⟨1, 1, 1, 1, 1⟩ =
      .ok (calculate_weighted_score 1 1 (9/10) 1 (7/10) ⟨1, 1, 1, 1, 1⟩) := by
  refine ⟨(C9_unknown_category "Martian" 1 1 1 ⟨1, 1, 1, 1, 1⟩).1 (by decide), ?_⟩
  obtain ⟨r, s, hr, hs, hok⟩ :=
    (C9_unknown_category "Japanese" 1 1 1 ⟨1, 1, 1, 1, 1⟩).2 (by decide)
  have hr9 : r = 9/10 := by
    have h9 : some r = some ((9 : ℚ)/10) := by
      rw [← hr]; simp [reliability_scores]
    exact Option.some.inj h9
  have hs7 : s = 7/10 := by
    have h7 : some s = some ((7 : ℚ)/10) := by
      rw [← hs]; simp [safety_scores]
    exact Option.some.inj h7
  rw [hr9, hs7] at hok
  exact hok

/-- When no denominator vanishes, the discounting loop from start index k
returns the discounted sum of the remaining flows. -/
lemma calculate_pv_from_ok (rate : ℚ) (hrate : 1 + rate ≠ 0) :
    ∀ (flows : List ℚ) (k : ℕ),
      calculate_pv_from flows rate k =
        .ok (∑ t ∈ Finset.range flows.length, flows.getD t 0 / (1 + rate) ^ (k + t)) := by
  intro flows
  induction flows with
  | nil =>
    intro k
    simp [calculate_pv_from]
  | cons cf rest ih =>
    intro k
    unfold calculate_pv_from
    rw [if_neg (pow_ne_zero k hrate), ih (k + 1)]
    have hval : cf / (1 + rate) ^ k +
        (∑ t ∈ Finset.range rest.length, rest.getD t 0 / (1 + rate) ^ (k + 1 + t)) =
        ∑ t ∈ Finset.range (cf :: rest).length,
          (cf :: rest).getD t 0 / (1 + rate) ^ (k + t) := by
      rw [List.length_cons, Finset.sum_range_succ']
      simp only [List.getD_cons_succ, List.getD_cons_zero, Nat.add_zero]
      have hsum : (∑ i ∈ Finset.range rest.length,
          rest.getD i 0 / (1 + rate) ^ (k + (i + 1))) =
          ∑ i ∈ Finset.range rest.length, rest.getD i 0 / (1 + rate) ^ (k + 1 + i) :=
        Finset.sum_congr rfl fun i _ => by rw [show k + (i + 1) = k + 1 + i by omega]
      rw [hsum]
      ring
    exact congrArg Except.ok hval

/-- Claim C7 (amended): whenever 1 + rate is nonzero, presentValue returns
the sum over t of flows[t] / (1 + rate)^t with period 0 undiscounted, so a
flow of X followed by five zeros discounts to exactly X, and the empty
sequence yields 0 rather than an error. -/
theorem C7_present_value (flows : List ℚ) (rate X : ℚ) (hrate : 1 + rate ≠ 0) :
    calculate_pv flows rate =
      .ok (∑ t ∈ Finset.range flows.length, flows.getD t 0 / (1 + rate) ^ t) ∧
    calculate_pv [X, 0, 0, 0, 0, 0] rate = .ok X ∧
    calculate_pv [] rate = .ok 0 := by
  have hmain : ∀ fl : List ℚ, calculate_pv fl rate =
      .ok (∑ t ∈ Finset.range fl.length, fl.getD t 0 / (1 + rate) ^ t) := by
    intro fl
    have h0 := calculate_pv_from_ok rate hrate fl 0
    simpa [calculate_pv] using h0
  refine ⟨hmain flows, ?_, ?_⟩
  · rw [hmain [X, 0, 0, 0, 0, 0]]
    congr 1
    simp [Finset.sum_range_succ]
  · rw [hmain []]
    simp

/-- Claim C7 counterexample: at discount rate -1 the year-1 denominator
(1 + rate)^1 is zero and the Python float division raises, so the result
is a ZeroDivisionError rather than the value X = 1 the claim requires for
every rate. -/
theorem C7_counterexample :
    calculate_pv [1, 0, 0, 0, 0, 0] (-1) = .error .zeroDivision := by
  simp only [calculate_pv]
  norm_num [calculate_pv_from]

/-- Claim C7 witness: at the default rate 0.05 a flow of 4 followed by five
zeros discounts to exactly 4 and the empty sequence discounts to 0. -/
theorem C7_witness :
    calculate_pv [4, 0, 0, 0, 0, 0] (1/20) = .ok 4 ∧
    calculate_pv [] (1/20) = .ok 0 :=
  ⟨(C7_present_value [] (1/20) 4 (by norm_num)).2.1,
   (C7_present_value [] (1/20) 4 (by norm_num)).2.2⟩

end IDSS
